import Mathlib

/-!
Shallow embedding of the caffe-to-NNIR graph construction pass
(`utils/model_compiler/python/caffe2nnir.py`) and proofs about it.

Modelling conventions:
- Python dicts are modelled as insertion-ordered association lists with
  replace-in-place update semantics (`aset`).
- Fallible operations (`KeyError`, `IndexError`, `ZeroDivisionError`,
  unpacking errors, `sys.exit(1)` aborts) are modelled in `Except String`.
- Python floats are modelled as rationals (all values handled by the pass
  are small integers or exact decimals, for which IEEE doubles are exact).
- In-place mutation of the attribute lists by `calculateTensorDims`
  (global pooling) is modelled by having the function return the updated
  attribute map alongside the dimension record; callers thread it through
  exactly where the Python aliasing would make the mutation visible.
- Tensor shape entries are modelled as integers.
-/

set_option synthInstance.maxSize 1024
set_option maxRecDepth 4096

namespace Caffe2Nnir

instance {ε α : Type} [DecidableEq ε] [DecidableEq α] : DecidableEq (Except ε α) := fun a b =>
  match a, b with
  | .error e, .error f =>
    if h : e = f then isTrue (h ▸ rfl) else isFalse (fun hh => h (Except.error.inj hh))
  | .ok x, .ok y =>
    if h : x = y then isTrue (h ▸ rfl) else isFalse (fun hh => h (Except.ok.inj hh))
  | .error _, .ok _ => isFalse (fun hh => Except.noConfusion hh)
  | .ok _, .error _ => isFalse (fun hh => Except.noConfusion hh)

/-- Association-list lookup, mirroring a Python dict read. -/
def alookup {κ α : Type} [DecidableEq κ] : List (κ × α) → κ → Option α
  | [], _ => none
  | (k0, v0) :: rest, k => if k0 = k then some v0 else alookup rest k

/-- Association-list write, mirroring Python dict assignment:
replace the value in place if the key exists, otherwise append. -/
def aset {κ α : Type} [DecidableEq κ] : List (κ × α) → κ → α → List (κ × α)
  | [], k, v => [(k, v)]
  | (k0, v0) :: rest, k, v =>
    if k0 = k then (k0, v) :: rest else (k0, v0) :: aset rest k v

/-- Python `key in dict`. -/
def amem {κ α : Type} [DecidableEq κ] (m : List (κ × α)) (k : κ) : Bool :=
  (alookup m k).isSome

/-- Python `dict.keys()` (insertion order). -/
def akeys {κ α : Type} (m : List (κ × α)) : List κ := m.map Prod.fst

/-- Python `dict.update(other)`. -/
def aupdate {κ α : Type} [DecidableEq κ] (m other : List (κ × α)) : List (κ × α) :=
  other.foldl (fun acc kv => aset acc kv.1 kv.2) m

/-- Python list indexing `l[i]`, raising `IndexError` when out of range. -/
def getAt {α : Type} (l : List α) (i : Nat) : Except String α :=
  match l[i]? with
  | some a => Except.ok a
  | none => Except.error "IndexError"

/-- Python list element assignment `l[i] = a`, raising `IndexError` when out of range. -/
def setAt {α : Type} (l : List α) (i : Nat) (a : α) : Except String (List α) :=
  if i < l.length then Except.ok (l.set i a) else Except.error "IndexError"

/-- Character-level effect of `caffe_name_to_ir_name`. -/
def irChar (c : Char) : Char := if c = '/' ∨ c = '-' then '_' else c

/-- Embedding of `caffe_name_to_ir_name`: join on `/` then on `-` with `_`,
i.e. replace every `/` and `-` character by `_`. -/
def caffe_name_to_ir_name (name : String) : String :=
  String.mk (name.data.map irChar)

/-- A Python scalar value as it occurs inside attribute lists of this program. -/
inductive PyScalar : Type where
  | sInt : Int → PyScalar
  | sFloat : Rat → PyScalar
  | sStr : String → PyScalar
  | sOther : String → PyScalar
deriving DecidableEq, Repr

/-- A Python attribute value: the program stores ints, floats, strings, and
flat lists of scalars in its attribute maps; `pOther` stands for any other
Python object (hits the unsupported-type error branch). -/
inductive PyVal : Type where
  | pInt : Int → PyVal
  | pFloat : Rat → PyVal
  | pStr : String → PyVal
  | pList : List PyScalar → PyVal
  | pOther : String → PyVal
deriving DecidableEq, Repr

/-- Values held by `IrAttr` after conversion. -/
inductive IrAttrVal : Type where
  | aInt : Int → IrAttrVal
  | aFloat : Rat → IrAttrVal
  | aStr : String → IrAttrVal
  | aIntList : List Int → IrAttrVal
  | aFloatList : List Rat → IrAttrVal
deriving DecidableEq, Repr

/-- Python `int(q)` on a float: truncation toward zero. -/
def ratTrunc (q : Rat) : Int := if 0 ≤ q then q.floor else q.ceil

/-- Python `int(v)` applied to a scalar (as used in the list-coercion
comprehension of `caffe_attr_to_ir_attr`). -/
def pyToInt : PyScalar → Except String Int
  | .sInt i => Except.ok i
  | .sFloat q => Except.ok (ratTrunc q)
  | .sStr s =>
    match s.toInt? with
    | some i => Except.ok i
    | none => Except.error "ValueError"
  | .sOther _ => Except.error "TypeError"

/-- Python `float(v)` applied to a scalar. (Numeric-string parsing is not
exercised by this program and is modelled as a failure.) -/
def pyToFloat : PyScalar → Except String Rat
  | .sInt i => Except.ok (mkRat i 1)
  | .sFloat q => Except.ok q
  | .sStr _ => Except.error "ValueError"
  | .sOther _ => Except.error "TypeError"

/-- The comprehension `[int(v) for v in l]`. -/
def mapPyToInt : List PyScalar → Except String (List Int)
  | [] => Except.ok []
  | v :: rest => do
    let i ← pyToInt v
    let r ← mapPyToInt rest
    Except.ok (i :: r)

/-- The comprehension `[float(v) for v in l]`. -/
def mapPyToFloat : List PyScalar → Except String (List Rat)
  | [] => Except.ok []
  | v :: rest => do
    let q ← pyToFloat v
    let r ← mapPyToFloat rest
    Except.ok (q :: r)

/-- One iteration of the loop body of `caffe_attr_to_ir_attr`: classify a
single attribute value.  Branch order follows the source: float, int, str,
list (dispatching on `type(attributeInfo[0])`), unsupported type. -/
def ir_attr_entry (v : PyVal) : Except String IrAttrVal :=
  match v with
  | .pFloat q => Except.ok (.aFloat q)
  | .pInt i => Except.ok (.aInt i)
  | .pStr s => Except.ok (.aStr s)
  | .pList l =>
    match l[0]? with
    | none => Except.error "IndexError"
    | some (PyScalar.sInt _) => (mapPyToInt l).map IrAttrVal.aIntList
    | some (PyScalar.sFloat _) => (mapPyToFloat l).map IrAttrVal.aFloatList
    | some _ => Except.error "ERROR: unsupported list attribute"
  | .pOther _ => Except.error "ERROR: Unsupported type of caffe attribute"

/-- Embedding of `caffe_attr_to_ir_attr`: convert a caffe attribute map into IR attributes,
aborting on the first unsupported value. -/
def caffe_attr_to_ir_attr : List (String × PyVal) → Except String (List (String × IrAttrVal))
  | [] => Except.ok []
  | (k, v) :: rest => do
    let a ← ir_attr_entry v
    let r ← caffe_attr_to_ir_attr rest
    Except.ok ((k, a) :: r)

/-- An IR tensor as built by `caffe_blob_to_ir_tensor`. -/
structure IrTensor where
  name : String
  dtype : String
  shape : List Int
deriving DecidableEq, Repr

/-- Embedding of `caffe_blob_to_ir_tensor`. -/
def caffe_blob_to_ir_tensor (blob_name : String) (blob_data_type : String)
    (blob_shape : List Int) : IrTensor :=
  { name := caffe_name_to_ir_name blob_name, dtype := blob_data_type, shape := blob_shape }

/-- An IR node as built by `caffe_node_to_ir_node`. -/
structure IrNode where
  ntype : String
  inputs : List String
  outputs : List String
  attributes : List (String × IrAttrVal)
deriving DecidableEq, Repr

/-- The IR sink: the graph accumulates inputs, outputs, variables, binaries
and nodes; its own file encoding is out of scope. -/
structure IrGraph where
  gInputs : List IrTensor := []
  gOutputs : List IrTensor := []
  gVariables : List IrTensor := []
  binaries : List (String × List Rat) := []
  nodes : List IrNode := []
deriving DecidableEq, Repr

def addInputT (g : IrGraph) (t : IrTensor) : IrGraph := { g with gInputs := g.gInputs ++ [t] }

def addOutputT (g : IrGraph) (t : IrTensor) : IrGraph := { g with gOutputs := g.gOutputs ++ [t] }

def addVariableT (g : IrGraph) (t : IrTensor) : IrGraph := { g with gVariables := g.gVariables ++ [t] }

def addBinaryB (g : IrGraph) (n : String) (buf : List Rat) : IrGraph :=
  { g with binaries := g.binaries ++ [(n, buf)] }

def addNodeN (g : IrGraph) (n : IrNode) : IrGraph := { g with nodes := g.nodes ++ [n] }

/-- The call `graph.updateLocals()` is bookkeeping internal to the external IR sink;
it does not change the data this development observes. -/
def updateLocalsG (g : IrGraph) : IrGraph := g

/-- Caffe `ConvolutionParameter` (fields read by this program).
`Option` models protobuf `HasField` for the per-axis overrides. -/
structure ConvolutionParam where
  pad : List Int := []
  pad_h : Option Int := none
  pad_w : Option Int := none
  stride : List Int := []
  stride_h : Option Int := none
  stride_w : Option Int := none
  kernel_size : List Int := []
  kernel_h : Option Int := none
  kernel_w : Option Int := none
  dilation : List Int := []
  num_output : Int := 0
  bias_term : Bool := true
  group : Option Int := none
deriving DecidableEq, Repr

/-- Caffe `PoolingParameter`; `pool` is the caffe enum (0 = MAX, 1 = AVE). -/
structure PoolingParam where
  pool : Nat := 0
  pad : Int := 0
  pad_h : Option Int := none
  pad_w : Option Int := none
  stride : Int := 1
  stride_h : Option Int := none
  stride_w : Option Int := none
  kernel_size : Int := 0
  kernel_h : Option Int := none
  kernel_w : Option Int := none
  global_pooling : Bool := false
deriving DecidableEq, Repr

structure LRNParam where
  local_size : Int := 5
  alpha : Rat := 1
  beta : Rat := mkRat 3 4
  k : Rat := 1
deriving DecidableEq, Repr

structure BatchNormParam where
  eps : Rat := mkRat 1 100000
deriving DecidableEq, Repr

structure InnerProductParam where
  num_output : Int := 0
  bias_term : Bool := true
deriving DecidableEq, Repr

structure ReLUParam where
  negative_slope : Rat := 0
deriving DecidableEq, Repr

/-- A caffe layer as read by this program.  `ltype` is the `type` field of the layer
string; `blobs` holds the raw float payloads (`blobs[k].data`). -/
structure LayerParameter where
  name : String := ""
  ltype : String := ""
  bottom : List String := []
  top : List String := []
  blobs : List (List Rat) := []
  convolution_param : ConvolutionParam := {}
  pooling_param : PoolingParam := {}
  lrn_param : LRNParam := {}
  batch_norm_param : BatchNormParam := {}
  inner_product_param : InnerProductParam := {}
  relu_param : ReLUParam := {}
deriving DecidableEq, Repr

structure NetParameter where
  input : List String := []
  layer : List LayerParameter := []
deriving DecidableEq, Repr

/-- The fixed caffe-type to NNIR-operator table `caffe2ir_op_type`. -/
def caffe2ir_op_type : List (String × String) :=
  [("Convolution", "conv"),
   ("Deconvolution", "conv_transpose"),
   ("BatchNorm", "batch_norm"),
   ("InnerProduct", "gemm"),
   ("ReLU", "relu"),
   ("LRN", "lrn"),
   ("Eltwise", "sum"),
   ("Concat", "concat"),
   ("Softmax", "softmax"),
   ("SoftmaxWithLoss", "softmax")]

/-- Embedding of `extractCaffeAttrInfo`: per-operator attribute extraction. -/
def extractCaffeAttrInfo (layer_param : LayerParameter) : List (String × PyVal) :=
  if layer_param.ltype = "Convolution" ∨ layer_param.ltype = "Deconvolution" then
    let conv := layer_param.convolution_param
    let pad_h := match conv.pad_h with
      | some v => v
      | none => (conv.pad[0]?).getD 0
    let pad_w := match conv.pad_w with
      | some v => v
      | none => (conv.pad[1]?).getD pad_h
    let stride_h := match conv.stride_h with
      | some v => v
      | none => (conv.stride[0]?).getD 1
    let stride_w := match conv.stride_w with
      | some v => v
      | none => (conv.stride[1]?).getD stride_h
    let kernel_h := match conv.kernel_h with
      | some v => v
      | none => (conv.kernel_size[0]?).getD 0
    let kernel_w := match conv.kernel_w with
      | some v => v
      | none => (conv.kernel_size[1]?).getD kernel_h
    let dilation_h := (conv.dilation[0]?).getD 1
    let dilation_w := (conv.dilation[1]?).getD dilation_h
    let groups := conv.group.getD 1
    [("strides", .pList [.sInt stride_w, .sInt stride_h]),
     ("kernel_shape", .pList [.sInt kernel_w, .sInt kernel_h]),
     ("group", .pInt groups),
     ("pads", .pList [.sInt pad_w, .sInt pad_h, .sInt pad_w, .sInt pad_h]),
     ("dilations", .pList [.sInt dilation_w, .sInt dilation_h])]
  else if layer_param.ltype = "Pooling" then
    let pooling := layer_param.pooling_param
    let pad_h := pooling.pad_h.getD pooling.pad
    let pad_w := pooling.pad_w.getD pooling.pad
    let stride_h := pooling.stride_h.getD pooling.stride
    let stride_w := pooling.stride_w.getD pooling.stride
    let kernel_h := pooling.kernel_h.getD pooling.kernel_size
    let kernel_w := pooling.kernel_w.getD pooling.kernel_size
    [("strides", .pList [.sInt stride_w, .sInt stride_h]),
     ("kernel_shape", .pList [.sInt kernel_w, .sInt kernel_h]),
     ("pads", .pList [.sInt pad_w, .sInt pad_h, .sInt pad_w, .sInt pad_h]),
     ("dim_round_mode", .pStr "ceil")]
  else if layer_param.ltype = "LRN" then
    let lrn := layer_param.lrn_param
    [("alpha", .pFloat lrn.alpha),
     ("beta", .pFloat lrn.beta),
     ("size", .pInt lrn.local_size),
     ("bias", .pFloat lrn.k)]
  else if layer_param.ltype = "BatchNorm" then
    [("epsilon", .pFloat layer_param.batch_norm_param.eps)]
  else if layer_param.ltype = "InnerProduct" then
    [("broadcast", .pInt 1), ("transB", .pInt 1)]
  else if layer_param.ltype = "ReLU" then
    [("alpha", .pFloat layer_param.relu_param.negative_slope)]
  else []

/-- The dict returned by `calculateTensorDims` (keys `"output"`,
`"weights"`, `"bias"`). -/
structure DimList where
  output : List Int := []
  weights : Option (List Int) := none
  bias : Option (List Int) := none
deriving DecidableEq, Repr

/-- Read a list-valued attribute such as `attribute_map["strides"]`. -/
def getListAttr (m : List (String × PyVal)) (k : String) : Except String (List PyScalar) :=
  match alookup m k with
  | some (.pList l) => Except.ok l
  | some _ => Except.error "TypeError"
  | none => Except.error "KeyError"

/-- Index a scalar list and require an integer (the arithmetic in
`calculateTensorDims` is integer arithmetic on these entries). -/
def elemInt (l : List PyScalar) (i : Nat) : Except String Int := do
  let v ← getAt l i
  match v with
  | .sInt n => Except.ok n
  | _ => Except.error "TypeError"

/-- Python tuple unpacking `n,c,h,w = shape` (exactly four components). -/
def shape4 (l : List Int) : Except String (Int × Int × Int × Int) :=
  match l with
  | [n, c, h, w] => Except.ok (n, c, h, w)
  | _ => Except.error "ValueError"

/-- Python integer floor division `a // b`. -/
def pyFloorDiv (a b : Int) : Except String Int :=
  if b = 0 then Except.error "ZeroDivisionError" else Except.ok (Int.fdiv a b)

/-- Python `int(math.ceil(float(a) / b))` (exact for the magnitudes the
pass handles). -/
def pyCeilDivFloat (a b : Int) : Except String Int :=
  if b = 0 then Except.error "ZeroDivisionError"
  else Except.ok ((Rat.divInt a b).ceil)

/-- Look up the shape of the i-th declared input key. -/
def inputShapeAt (input_map : List (String × List Int)) (i : Nat) :
    Except String (List Int) := do
  let k ← getAt (akeys input_map) i
  match alookup input_map k with
  | some s => Except.ok s
  | none => Except.error "KeyError"

/-- Embedding of `calculateTensorDims`: per-operator output/weight/bias shape inference.
Returns the dimension record together with the attribute map as visible to
the caller after the call (global pooling mutates the shared attribute
lists in place; every other branch leaves the map unchanged). -/
def calculateTensorDims (layer_param : LayerParameter)
    (input_map : List (String × List Int)) (attribute_map : List (String × PyVal)) :
    Except String (DimList × List (String × PyVal)) := do
  let inputs := akeys input_map
  if layer_param.ltype = "Convolution" then do
    let strides ← getListAttr attribute_map "strides"
    let pads ← getListAttr attribute_map "pads"
    let dilations ← getListAttr attribute_map "dilations"
    let kernel_shape ← getListAttr attribute_map "kernel_shape"
    let shape ← inputShapeAt input_map 0
    let (n, c, h, w) ← shape4 shape
    let s0 ← elemInt strides 0
    let s1 ← elemInt strides 1
    let p0 ← elemInt pads 0
    let p1 ← elemInt pads 1
    let d0 ← elemInt dilations 0
    let d1 ← elemInt dilations 1
    let kw ← elemInt kernel_shape 0
    let kh ← elemInt kernel_shape 1
    let q3 ← pyFloorDiv (w + 2 * p0 - kw - (kw - 1) * (d0 - 1)) s0
    let q2 ← pyFloorDiv (h + 2 * p1 - kh - (kh - 1) * (d1 - 1)) s1
    let out1 := layer_param.convolution_param.num_output
    let weight_dims := [out1, c, kh, kw]
    Except.ok ({ output := [n, out1, q2 + 1, q3 + 1]
                 weights := some weight_dims
                 bias := if layer_param.convolution_param.bias_term then some [out1] else none },
               attribute_map)
  else if layer_param.ltype = "Deconvolution" then do
    let strides ← getListAttr attribute_map "strides"
    let pads ← getListAttr attribute_map "pads"
    let dilations ← getListAttr attribute_map "dilations"
    let kernel_shape ← getListAttr attribute_map "kernel_shape"
    let shape ← inputShapeAt input_map 0
    let (n, c, h, w) ← shape4 shape
    let s0 ← elemInt strides 0
    let s1 ← elemInt strides 1
    let p0 ← elemInt pads 0
    let p1 ← elemInt pads 1
    let d0 ← elemInt dilations 0
    let d1 ← elemInt dilations 1
    let kw ← elemInt kernel_shape 0
    let kh ← elemInt kernel_shape 1
    let out3 := s0 * (w - 1) + d0 * (kw - 1) + 1 - 2 * p0
    let out2 := s1 * (h - 1) + d1 * (kh - 1) + 1 - 2 * p1
    let out1 := layer_param.convolution_param.num_output
    let weight_dims := [out1, c, kh, kw]
    Except.ok ({ output := [n, out1, out2, out3]
                 weights := some weight_dims
                 bias := if layer_param.convolution_param.bias_term then some [out1] else none },
               attribute_map)
  else if layer_param.ltype = "Pooling" then do
    let strides0 ← getListAttr attribute_map "strides"
    let pads0 ← getListAttr attribute_map "pads"
    let kernel0 ← getListAttr attribute_map "kernel_shape"
    let shape ← inputShapeAt input_map 0
    let (n, c, h, w) ← shape4 shape
    let (strides, pads, kernel_shape, am) ←
      if layer_param.pooling_param.global_pooling then do
        let ks1 ← setAt kernel0 1 (.sInt h)
        let ks2 ← setAt ks1 0 (.sInt w)
        let pd1 ← setAt pads0 0 (.sInt 0)
        let pd2 ← setAt pd1 1 (.sInt 0)
        let st1 ← setAt strides0 0 (.sInt 1)
        let st2 ← setAt st1 1 (.sInt 1)
        Except.ok (st2, pd2, ks2,
          aset (aset (aset attribute_map "kernel_shape" (.pList ks2))
            "pads" (.pList pd2)) "strides" (.pList st2))
      else
        Except.ok (strides0, pads0, kernel0, attribute_map)
    let s0 ← elemInt strides 0
    let s1 ← elemInt strides 1
    let p0 ← elemInt pads 0
    let p1 ← elemInt pads 1
    let kw ← elemInt kernel_shape 0
    let kh ← elemInt kernel_shape 1
    let c3 ← pyCeilDivFloat (w + 2 * p0 + s0 - kw) s0
    let c2 ← pyCeilDivFloat (h + 2 * p1 + s1 - kh) s1
    let out2 := if p1 > 0 ∧ (c2 - 1) * s1 ≥ h + p1 then c2 - 1 else c2
    let out3 := if p0 > 0 ∧ (c3 - 1) * s0 ≥ w + p0 then c3 - 1 else c3
    Except.ok ({ output := [n, c, out2, out3] }, am)
  else if layer_param.ltype = "InnerProduct" then do
    let shape ← inputShapeAt input_map 0
    let (n, c, h, w) ← shape4 shape
    let out1 := layer_param.inner_product_param.num_output
    let weight_dims := [out1, c, h, w]
    Except.ok ({ output := [n, out1, 1, 1]
                 weights := some weight_dims
                 bias := if layer_param.inner_product_param.bias_term then some [out1] else none },
               attribute_map)
  else if layer_param.ltype = "Concat" then do
    let csum ← inputs.foldlM (fun acc k => do
        let shape ← (match alookup input_map k with
          | some s => Except.ok s
          | none => Except.error "KeyError")
        let (_, c, _, _) ← shape4 shape
        Except.ok (acc + c)) (0 : Int)
    let shape0 ← inputShapeAt input_map 0
    let (n, _, h, w) ← shape4 shape0
    Except.ok ({ output := [n, csum, h, w] }, attribute_map)
  else if layer_param.ltype = "BatchNorm" ∨ layer_param.ltype = "Scale" then do
    let shape ← inputShapeAt input_map 0
    let (n, c, h, w) ← shape4 shape
    Except.ok ({ output := [n, c, h, w]
                 weights := if layer_param.blobs.length > 0 then some [c] else none
                 bias := if layer_param.blobs.length > 1 then some [c] else none },
               attribute_map)
  else do
    let shape ← inputShapeAt input_map 0
    let (n, c, h, w) ← shape4 shape
    Except.ok ({ output := [n, c, h, w] }, attribute_map)

/-- The per-emitted-node record `layer_info_map`.  `layer_type` is an
`Option` because the source can store a record without ever assigning the
`"layer_type"` key (a Scale layer processed while `count == 0`); reading it
then raises `KeyError`. -/
structure LayerInfoMap where
  layer_name : String := ""
  layer_type : Option String := none
  attributes : List (String × PyVal) := []
  inputs : List (String × List Int) := []
  outputs : List (String × List Int) := []
  weights : Option (List (String × List Int)) := none
  biases : Option (List (String × List Int)) := none
  scale_weights : Option (List (String × List Int)) := none
  scale_bias : Option (List (String × List Int)) := none
deriving DecidableEq, Repr

/-- Keys of an optional sub-map (`{}` when the key is absent). -/
def optKeys (m : Option (List (String × List Int))) : List String :=
  match m with
  | some l => akeys l
  | none => []

/-- Python dict read that raises `KeyError` on a missing key. -/
def getLayerType (lim : LayerInfoMap) : Except String String :=
  match lim.layer_type with
  | some t => Except.ok t
  | none => Except.error "KeyError"

/-- Embedding of `caffe_node_to_ir_node`: input order is primary inputs, fused
scale-weights, fused scale-bias, own weights, own biases. -/
def caffe_node_to_ir_node (layer_type : String) (lim : LayerInfoMap) :
    Except String IrNode := do
  let ins := akeys lim.inputs ++ optKeys lim.scale_weights ++ optKeys lim.scale_bias
      ++ optKeys lim.weights ++ optKeys lim.biases
  let outs := akeys lim.outputs
  let attrs ← caffe_attr_to_ir_attr lim.attributes
  Except.ok { ntype := layer_type
              inputs := ins.map caffe_name_to_ir_name
              outputs := outs.map caffe_name_to_ir_name
              attributes := attrs }

/-- Embedding of `extractBinary`: dump `blobs[0]` under `<name>_w` and `blobs[1]` under
`<name>_b` (the byte packing is the identity on the float list here). -/
def extractBinary (layer_parameter : LayerParameter) (graph : IrGraph) : IrGraph :=
  let layer_name := caffe_name_to_ir_name layer_parameter.name
  let g1 := match layer_parameter.blobs[0]? with
    | some buf => addBinaryB graph (caffe_name_to_ir_name (layer_name ++ "_w")) buf
    | none => graph
  match layer_parameter.blobs[1]? with
  | some buf => addBinaryB g1 (caffe_name_to_ir_name (layer_name ++ "_b")) buf
  | none => g1

/-- Embedding of `extractInput`: determine the declared network input name and register
the input tensor. -/
def extractInput (net_parameter : NetParameter) (graph : IrGraph)
    (input_dims : List Int) : Except String (List (String × List Int) × IrGraph) := do
  let layers := net_parameter.layer
  let first_layer_param ← getAt layers 0
  let flt := first_layer_param.ltype
  let input_name ←
    if net_parameter.input.length ≠ 0 then do
      let i0 ← getAt net_parameter.input 0
      Except.ok (caffe_name_to_ir_name i0)
    else if flt = "Data" ∨ flt = "Input" ∨ flt = "ImageData" then
      match first_layer_param.top with
      | [] => Except.ok (caffe_name_to_ir_name first_layer_param.name)
      | t0 :: _ => Except.ok (caffe_name_to_ir_name t0)
    else
      match first_layer_param.bottom with
      | [] => do
        let t0 ← getAt first_layer_param.top 0
        Except.ok (caffe_name_to_ir_name t0)
      | b0 :: _ => Except.ok (caffe_name_to_ir_name b0)
  Except.ok ([(input_name, input_dims)],
    addInputT graph (caffe_blob_to_ir_tensor input_name "F032" input_dims))

/-- State threaded through `extractCaffeNodeInfo`. -/
structure PassState where
  inputOutputMap : List (Nat × LayerInfoMap) := []
  dropoutLayerMap : List (String × String) := []
  splitLayerMap : List (String × String) := []
  outputNameAliasMap : List (String × String) := []
  inputsMap : List (String × List Int) := []
  outputsMap : List (String × List Int) := []
  count : Nat := 0
  graph : IrGraph := {}
deriving DecidableEq, Repr

/-- Python `x != 0` on an attribute value (non-numbers compare unequal). -/
def pyNeZero : PyVal → Bool
  | .pInt i => i != 0
  | .pFloat q => q != 0
  | _ => true

/-- Input resolution for the first emitted layer (`count == 0`): the
membership test uses the RAW declared name while the shape is fetched
under the canonical name, exactly as in the source. -/
def resolveInputsFirst (inputsInfo : List (String × List Int)) (layer_name : String) :
    List String → List (String × List Int) → Except String (List (String × List Int))
  | [], acc => Except.ok acc
  | raw :: restIn, acc =>
    let in_name := caffe_name_to_ir_name raw
    if amem inputsInfo raw then
      match alookup inputsInfo in_name with
      | some d => resolveInputsFirst inputsInfo layer_name restIn (aset acc in_name d)
      | none => Except.error "KeyError"
    else
      Except.error ("ERROR: unable to get the input dimensions for the layer " ++ layer_name)

/-- Input resolution for later layers (`count > 0`): canonicalize, rewrite
through the rename/split/dropout alias tables, then search previous
outputs, global outputs, global inputs, the alias tables again, with the
optional-label early exit for Softmax. -/
def resolveInputsNext (st : PassState) (layer_type layer_name : String)
    (prevOutMap : List (String × List Int)) :
    List String → Nat → List (String × List Int) → Except String (List (String × List Int))
  | [], _, acc => Except.ok acc
  | raw :: restIn, k, acc =>
    let n0 := caffe_name_to_ir_name raw
    let n1 := (alookup st.outputNameAliasMap n0).getD n0
    let n2 := (alookup st.splitLayerMap n1).getD n1
    let input_name := (alookup st.dropoutLayerMap n2).getD n2
    match alookup prevOutMap input_name with
    | some d => resolveInputsNext st layer_type layer_name prevOutMap restIn (k + 1)
        (aset acc input_name d)
    | none =>
      match alookup st.outputsMap input_name with
      | some d => resolveInputsNext st layer_type layer_name prevOutMap restIn (k + 1)
          (aset acc input_name d)
      | none =>
        match alookup st.inputsMap input_name with
        | some d => resolveInputsNext st layer_type layer_name prevOutMap restIn (k + 1)
            (aset acc input_name d)
        | none =>
          match alookup st.dropoutLayerMap input_name with
          | some a2 =>
            (match alookup st.outputsMap a2 with
             | some d => resolveInputsNext st layer_type layer_name prevOutMap restIn (k + 1)
                 (aset acc a2 d)
             | none => Except.error "KeyError")
          | none =>
            match alookup st.splitLayerMap input_name with
            | some a2 =>
              (match alookup prevOutMap a2 with
               | some d => resolveInputsNext st layer_type layer_name prevOutMap restIn (k + 1)
                   (aset acc a2 d)
               | none => Except.error "KeyError")
            | none =>
              if (layer_type = "Softmax" ∨ layer_type = "SoftmaxWithLoss") ∧ k ≠ 0 then
                Except.ok acc
              else
                match alookup st.outputNameAliasMap input_name with
                | some a2 =>
                  (match alookup prevOutMap a2 with
                   | some d => resolveInputsNext st layer_type layer_name prevOutMap restIn (k + 1)
                       (aset acc a2 d)
                   | none => Except.error "KeyError")
                | none =>
                  Except.error ("ERROR: unknown dimensions for " ++ input_name
                    ++ " in the layer " ++ layer_name)

/-- The BatchNorm+Scale fusion step (source lines 404-435): re-derive the
shapes from the preceding record, attach the scale parameters to it, rename
its identity to the Scale layer, and emit the single fused node.  `count`
is not advanced. -/
def fuseScale (layer_param : LayerParameter) (st : PassState) (prev : LayerInfoMap) :
    Except String PassState := do
  let layer_name := caffe_name_to_ir_name layer_param.name
  let outputs := layer_param.top
  let graph1 := extractBinary layer_param st.graph
  let (dimList, prevAttrs) ← calculateTensorDims layer_param prev.inputs prev.attributes
  let modified_out : List (String × List Int) := [(layer_name, dimList.output)]
  let outputsMap1 := aupdate st.outputsMap modified_out
  let prev1 := { prev with outputs := modified_out, attributes := prevAttrs }
  let (prev2, graph2) :=
    match dimList.weights with
    | some wd =>
      let scale_weights := layer_name ++ "_w"
      ({ prev1 with scale_weights := some [(scale_weights, wd)] },
       addVariableT graph1 (caffe_blob_to_ir_tensor scale_weights "F032" wd))
    | none => (prev1, graph1)
  let (prev3, graph3) :=
    match dimList.bias with
    | some bd =>
      let scale_bias := layer_name ++ "_b"
      ({ prev2 with scale_bias := some [(scale_bias, bd)] },
       addVariableT graph2 (caffe_blob_to_ir_tensor scale_bias "F032" bd))
    | none => (prev2, graph2)
  let o0 ← getAt outputs 0
  let alias1 :=
    if layer_name ≠ caffe_name_to_ir_name o0 then
      aset st.outputNameAliasMap (caffe_name_to_ir_name o0) layer_name
    else st.outputNameAliasMap
  let prev4 := { prev3 with layer_name := layer_name }
  let ioMap1 := aset st.inputOutputMap (st.count - 1) prev4
  let plt ← getLayerType prev4
  let node ← caffe_node_to_ir_node plt prev4
  Except.ok { st with
    inputOutputMap := ioMap1
    outputsMap := outputsMap1
    outputNameAliasMap := alias1
    graph := addNodeN graph3 node }

/-- The tail of the per-layer loop body shared by every non-skipped,
non-fused layer (source lines 446-541). `lt0` is the resolved operator
type; it is `none` exactly when the source never assigned
`layer_info_map["layer_type"]`. -/
def processCommon (inputsInfo : List (String × List Int)) (rest : List LayerParameter)
    (layer_param : LayerParameter) (st : PassState) (lt0 : Option String) :
    Except String PassState := do
  let layer_name := caffe_name_to_ir_name layer_param.name
  let layer_type := layer_param.ltype
  let inputs := layer_param.bottom
  let outputs := layer_param.top
  let attribute_map := extractCaffeAttrInfo layer_param
  let lt1 ←
    if layer_type = "ReLU" then do
      let a ← (match alookup attribute_map "alpha" with
        | some v => Except.ok v
        | none => Except.error "KeyError")
      Except.ok (if pyNeZero a then some "leaky_relu" else lt0)
    else Except.ok lt0
  let input_info_map ←
    if st.count = 0 then
      resolveInputsFirst inputsInfo layer_name inputs []
    else do
      let prev ← (match alookup st.inputOutputMap (st.count - 1) with
        | some p => Except.ok p
        | none => Except.error "KeyError")
      resolveInputsNext st layer_type layer_name prev.outputs inputs 0 []
  let inputsMap1 := aupdate st.inputsMap input_info_map
  let (dimList, attribute_map2) ← calculateTensorDims layer_param input_info_map attribute_map
  let alias1 :=
    match outputs with
    | [] => st.outputNameAliasMap
    | o0 :: _ =>
      if caffe_name_to_ir_name layer_name ≠ caffe_name_to_ir_name o0 then
        aset st.outputNameAliasMap (caffe_name_to_ir_name o0) (caffe_name_to_ir_name layer_name)
      else st.outputNameAliasMap
  let output_info_map : List (String × List Int) := [(layer_name, dimList.output)]
  let outputsMap1 := aupdate st.outputsMap output_info_map
  let graph1 := extractBinary layer_param st.graph
  let (weightsOpt, graph2) :=
    match dimList.weights with
    | some wd =>
      let weights := layer_name ++ "_w"
      (some [(weights, wd)], addVariableT graph1 (caffe_blob_to_ir_tensor weights "F032" wd))
    | none => (none, graph1)
  let (biasOpt, graph3) :=
    match dimList.bias with
    | some bd =>
      let biases := layer_name ++ "_b"
      (some [(biases, bd)], addVariableT graph2 (caffe_blob_to_ir_tensor biases "F032" bd))
    | none => (none, graph2)
  let lim : LayerInfoMap :=
    { layer_name := layer_name
      layer_type := lt1
      attributes := attribute_map2
      inputs := input_info_map
      outputs := output_info_map
      weights := weightsOpt
      biases := biasOpt }
  let ioMap1 := aset st.inputOutputMap st.count lim
  let st1 : PassState :=
    { st with
      inputOutputMap := ioMap1
      inputsMap := inputsMap1
      outputsMap := outputsMap1
      outputNameAliasMap := alias1
      count := st.count + 1
      graph := graph3 }
  let ltF ← getLayerType lim
  if ltF = "batch_norm" then
    match rest.head? with
    | some nxt =>
      if nxt.ltype = "Scale" then Except.ok st1
      else do
        let node ← caffe_node_to_ir_node ltF lim
        Except.ok { st1 with graph := addNodeN st1.graph node }
    | none => do
      let node ← caffe_node_to_ir_node ltF lim
      Except.ok { st1 with graph := addNodeN st1.graph node }
  else do
    let node ← caffe_node_to_ir_node ltF lim
    Except.ok { st1 with graph := addNodeN st1.graph node }

/-- One iteration of the layer loop of `extractCaffeNodeInfo`.
`rest` is the list of layers after the current one (used for the
BatchNorm-then-Scale lookahead); `total` is `len(layers)`. -/
def processLayer (inputsInfo : List (String × List Int)) (total : Nat)
    (rest : List LayerParameter) (layer_param : LayerParameter) (st : PassState) :
    Except String PassState :=
  let layer_type := layer_param.ltype
  let inputs := layer_param.bottom
  let outputs := layer_param.top
  if layer_type = "Data" ∨ layer_type = "ImageData" ∨ layer_type = "Input" then
    Except.ok st
  else if layer_type = "Dropout" then do
    let b0 ← getAt inputs 0
    let in_name0 := caffe_name_to_ir_name b0
    let in_name := (alookup st.outputNameAliasMap in_name0).getD in_name0
    let o0 ← getAt outputs 0
    Except.ok { st with
      dropoutLayerMap := aset st.dropoutLayerMap (caffe_name_to_ir_name o0) in_name }
  else if layer_type = "Split" then do
    let b0 ← getAt inputs 0
    let in_name0 := caffe_name_to_ir_name b0
    let in_name := (alookup st.outputNameAliasMap in_name0).getD in_name0
    Except.ok { st with
      splitLayerMap := outputs.foldl
        (fun m o => aset m (caffe_name_to_ir_name o) in_name) st.splitLayerMap }
  else do
    let step ←
      (match alookup caffe2ir_op_type layer_type with
       | some t => Except.ok (Sum.inl (some t))
       | none =>
         if layer_type = "Pooling" then
           Except.ok (Sum.inl (some
             (if layer_param.pooling_param.pool = 0 then "max_pool" else "avg_pool")))
         else if layer_type = "Scale" then
           if st.count > 0 ∧ st.count < total then do
             let prev ← (match alookup st.inputOutputMap (st.count - 1) with
               | some p => Except.ok p
               | none => Except.error "KeyError")
             let prevType ← getLayerType prev
             if prevType = "batch_norm" then do
               let st2 ← fuseScale layer_param st prev
               Except.ok (Sum.inr st2)
             else
               Except.ok (Sum.inl (some
                 (if layer_param.blobs.length = 1 then "mul" else "muladd")))
           else
             Except.ok (Sum.inl none)
         else
           Except.error ("ERROR: caffe operation " ++ layer_type ++ " is not supported yet."))
    match step with
    | Sum.inr st2 => Except.ok st2
    | Sum.inl lt0 => processCommon inputsInfo rest layer_param st lt0

/-- The layer loop of `extractCaffeNodeInfo`. -/
def processLayers (inputsInfo : List (String × List Int)) (total : Nat) :
    List LayerParameter → PassState → Except String PassState
  | [], st => Except.ok st
  | lp :: rest, st => do
    let st1 ← processLayer inputsInfo total rest lp st
    processLayers inputsInfo total rest st1

/-- Embedding of `extractCaffeNodeInfo`: the main graph-building pass. -/
def extractCaffeNodeInfo (net_parameter : NetParameter) (graph : IrGraph)
    (inputsInfo : List (String × List Int)) : Except String PassState := do
  let st0 : PassState := { graph := graph }
  let st ← processLayers inputsInfo net_parameter.layer.length net_parameter.layer st0
  Except.ok { st with graph := updateLocalsG st.graph }

/-- Embedding of `extractOutput`: the single output of the last emitted record becomes the
network output tensor. -/
def extractOutput (graph : IrGraph) (inputOutputLayers : List (Nat × LayerInfoMap)) :
    Except String (List (String × List Int) × IrGraph) := do
  let last_layer_index := inputOutputLayers.length - 1
  let last ← (match alookup inputOutputLayers last_layer_index with
    | some l => Except.ok l
    | none => Except.error "KeyError")
  let output_name ← getAt (akeys last.outputs) 0
  let output_dims ← (match alookup last.outputs output_name with
    | some d => Except.ok d
    | none => Except.error "KeyError")
  Except.ok ([(output_name, output_dims)],
    addOutputT graph (caffe_blob_to_ir_tensor output_name "F032" output_dims))

/-- Embedding of `caffe_graph_to_ir_graph`: boundary input extraction, the main pass,
boundary output extraction. -/
def caffe_graph_to_ir_graph (net_parameter : NetParameter) (input_dims : List Int) :
    Except String IrGraph := do
  let graph : IrGraph := {}
  let (inputMap, g1) ← extractInput net_parameter graph input_dims
  let st ← extractCaffeNodeInfo net_parameter g1 inputMap
  let (_, g2) ← extractOutput st.graph st.inputOutputMap
  Except.ok g2

/-! ### Helper lemmas -/

theorem bind_ok_iff {α β : Type} (e : Except String α) (f : α → Except String β) (b : β) :
    (e >>= f) = Except.ok b ↔ ∃ a, e = Except.ok a ∧ f a = Except.ok b := by
  cases e <;> simp [Bind.bind, Except.bind]

/-! ### Concrete layers and models used to instantiate the claims -/

/-- Externally supplied input dimensions for the small test models. -/
def inputDims : List Int := [1, 3, 8, 8]

/-- The input map produced by the boundary extractor for the small test models. -/
def netInputs : List (String × List Int) := [("data", inputDims)]

/-- Pooling layer of C2: kernel 3x3, stride 2, pad 1, MAX mode. -/
def poolingClaim2 : LayerParameter :=
  { name := "pool1", ltype := "Pooling", bottom := ["data"], top := ["pool1"],
    pooling_param := { pool := 0, pad := 1, stride := 2, kernel_size := 3 } }

/-- Convolution layer of C3: kernel 7x7, stride 2, pad 3, dilation 1, 64 outputs. -/
def convClaim3 : LayerParameter :=
  { name := "conv1", ltype := "Convolution", bottom := ["data"], top := ["conv1"],
    convolution_param :=
      { pad := [3], stride := [2], kernel_size := [7], num_output := 64, bias_term := false } }

/-- First layer whose raw bottom name contains a slash (C6). -/
def reluSlash : LayerParameter :=
  { name := "relu1", ltype := "ReLU", bottom := ["data/x"], top := ["relu1"] }

/-- Net declaring the top-level input under the same raw slashed name (C6). -/
def netSlash : NetParameter := { input := ["data/x"], layer := [reluSlash] }

/-- Same single-layer net with a canonical (slash-free) input name (C6). -/
def reluPlain : LayerParameter :=
  { name := "relu1", ltype := "ReLU", bottom := ["data"], top := ["relu1"] }

/-- Net for the success case of C6. -/
def netPlain : NetParameter := { input := ["data"], layer := [reluPlain] }

/-! ### C2 -/

/-- C2 counterexample: for Pooling with input `(1,64,112,112)`, kernel 3x3,
stride 2, pad 1, the code computes output `(1,64,57,57)` — the value
`(1,64,56,56)` stated by the claim is wrong (indeed the ceil
formula stated by the claim itself gives `ceil(113/2) = 57` and the decrement guard `112 >= 113`
fails). -/
theorem c2_pooling_counterexample :
    (calculateTensorDims poolingClaim2 [("data", [1, 64, 112, 112])]
        (extractCaffeAttrInfo poolingClaim2)).map (fun r => r.1.output)
      = Except.ok [1, 64, 57, 57]
    ∧ (calculateTensorDims poolingClaim2 [("data", [1, 64, 112, 112])]
        (extractCaffeAttrInfo poolingClaim2)).map (fun r => r.1.output)
      ≠ Except.ok [1, 64, 56, 56] := by
  exact ⟨by decide, by decide⟩

/-- C2 (amended): for Pooling with input `(1,64,112,112)`, kernel 3x3,
stride 2, pad 1, under the ceil rounding rule the computed output shape is
`(1,64,57,57)`. -/
theorem c2_pooling_output :
    calculateTensorDims poolingClaim2 [("data", [1, 64, 112, 112])]
        (extractCaffeAttrInfo poolingClaim2)
      = Except.ok ({ output := [1, 64, 57, 57] }, extractCaffeAttrInfo poolingClaim2) := by
  decide

/-! ### C3 -/

/-- C3: for every Convolution layer, the computed output is
`floor((in + 2 pad - kernel - (kernel-1)(dilation-1)) / stride) + 1` per
spatial axis, with `outC = numOutput` and `outN = inN`; weight shape is
`(outC, inC, kernelH, kernelW)` and bias `(outC)` iff enabled. -/
theorem c3_conv_output_formula (lp : LayerParameter) (im : List (String × List Int))
    (am : List (String × PyVal)) (nm : String) (n c h w : Int)
    (ms : List (String × List Int)) (sw sh pw ph dw dh kw kh : Int)
    (hlt : lp.ltype = "Convolution")
    (him : im = (nm, [n, c, h, w]) :: ms)
    (hs : alookup am "strides" = some (PyVal.pList [PyScalar.sInt sw, PyScalar.sInt sh]))
    (hp : alookup am "pads" = some (PyVal.pList
      [PyScalar.sInt pw, PyScalar.sInt ph, PyScalar.sInt pw, PyScalar.sInt ph]))
    (hd : alookup am "dilations" = some (PyVal.pList [PyScalar.sInt dw, PyScalar.sInt dh]))
    (hk : alookup am "kernel_shape" = some (PyVal.pList [PyScalar.sInt kw, PyScalar.sInt kh]))
    (hsw : sw ≠ 0) (hsh : sh ≠ 0) :
    calculateTensorDims lp im am = Except.ok
      ({ output := [n, lp.convolution_param.num_output,
                    Int.fdiv (h + 2 * ph - kh - (kh - 1) * (dh - 1)) sh + 1,
                    Int.fdiv (w + 2 * pw - kw - (kw - 1) * (dw - 1)) sw + 1]
         weights := some [lp.convolution_param.num_output, c, kh, kw]
         bias := if lp.convolution_param.bias_term then
           some [lp.convolution_param.num_output] else none },
       am) := by
  subst him
  simp [calculateTensorDims, hlt, hs, hp, hd, hk, getListAttr, elemInt, getAt,
    inputShapeAt, akeys, alookup, shape4, pyFloorDiv, hsw, hsh, bind, Except.bind]

/-- C3 witness: input `(1,3,224,224)`, kernel 7x7, stride 2, pad 3,
dilation 1, numOutput 64 gives output `(1,64,112,112)`. -/
theorem c3_conv_output_formula_witness :
    (calculateTensorDims convClaim3 [("data", [1, 3, 224, 224])]
        (extractCaffeAttrInfo convClaim3)).map (fun r => r.1.output)
      = Except.ok [1, 64, 112, 112] := by
  have h := c3_conv_output_formula convClaim3 [("data", [1, 3, 224, 224])]
    (extractCaffeAttrInfo convClaim3) "data" 1 3 224 224 [] 2 2 3 3 1 1 7 7
    (by decide) rfl (by decide) (by decide) (by decide) (by decide) (by decide) (by decide)
  rw [h]
  decide

/-! ### C6 -/

/-- C6: evidence for the code bug.  The boundary extractor canonicalizes the
declared network input to `data_x`; the raw bottom name of the first layer
`data/x` canonicalizes to the same `data_x`; yet the pass aborts with the
input-dimensions error, because the membership test at the first layer uses
the RAW name against the canonically-keyed input map.  The same model with
a slash-free name converts fine. -/
theorem c6_first_layer_raw_name_mismatch :
    (extractInput netSlash {} inputDims).map Prod.fst = Except.ok [("data_x", inputDims)]
    ∧ caffe_name_to_ir_name "data/x" = "data_x"
    ∧ (do
        let r ← extractInput netSlash {} inputDims
        extractCaffeNodeInfo netSlash r.2 r.1)
      = Except.error "ERROR: unable to get the input dimensions for the layer relu1"
    ∧ ((do
        let r ← extractInput netPlain {} inputDims
        extractCaffeNodeInfo netPlain r.2 r.1 : Except String PassState)).map
        (fun st => st.graph.nodes.length)
      = Except.ok 1 := by
  refine ⟨by decide, by decide, by decide, by decide⟩

/-! ### C4 -/

/-- Whether the first element of a list attribute is an int or a float — the only
test the converter performs on a list. -/
def listHeadNumeric : List PyScalar → Bool
  | PyScalar.sInt _ :: _ => true
  | PyScalar.sFloat _ :: _ => true
  | _ => false

/-- An int or float scalar. -/
def isNumScalar : PyScalar → Bool
  | .sInt _ => true
  | .sFloat _ => true
  | _ => false

theorem mapPyToInt_isOk (l : List PyScalar) (h : ∀ v ∈ l, isNumScalar v = true) :
    ∃ r, mapPyToInt l = Except.ok r := by
  induction l with
  | nil => exact ⟨[], rfl⟩
  | cons v rest ih =>
    obtain ⟨r, hr⟩ := ih (fun x hx => h x (List.mem_cons_of_mem v hx))
    have hv := h v (List.mem_cons_self v rest)
    cases v with
    | sInt i => exact ⟨i :: r, by simp [mapPyToInt, pyToInt, hr, bind, Except.bind]⟩
    | sFloat q => exact ⟨ratTrunc q :: r, by simp [mapPyToInt, pyToInt, hr, bind, Except.bind]⟩
    | sStr s => simp [isNumScalar] at hv
    | sOther s => simp [isNumScalar] at hv

theorem mapPyToFloat_isOk (l : List PyScalar) (h : ∀ v ∈ l, isNumScalar v = true) :
    ∃ r, mapPyToFloat l = Except.ok r := by
  induction l with
  | nil => exact ⟨[], rfl⟩
  | cons v rest ih =>
    obtain ⟨r, hr⟩ := ih (fun x hx => h x (List.mem_cons_of_mem v hx))
    have hv := h v (List.mem_cons_self v rest)
    cases v with
    | sInt i => exact ⟨mkRat i 1 :: r, by simp [mapPyToFloat, pyToFloat, hr, bind, Except.bind]⟩
    | sFloat q => exact ⟨q :: r, by simp [mapPyToFloat, pyToFloat, hr, bind, Except.bind]⟩
    | sStr s => simp [isNumScalar] at hv
    | sOther s => simp [isNumScalar] at hv

/-- C4 counterexample: the mixed int/float list `[1, 2.5]` passes attribute
conversion (it is coerced through `int()` to `[1, 2]` because only the FIRST
element of the list has its type inspected), refuting "a mixed-type list never passes
attribute conversion successfully". -/
theorem c4_mixed_list_counterexample :
    caffe_attr_to_ir_attr [("x", PyVal.pList [PyScalar.sInt 1, PyScalar.sFloat (mkRat 5 2)])]
      = Except.ok [("x", IrAttrVal.aIntList [1, 2])] := by
  decide

/-- C4 (amended): the fatal list error depends only on the FIRST element of
a list attribute: (1) any attribute map containing a list whose first
element is missing or is neither an int nor a float makes the conversion
fail; (2) a (possibly mixed) non-empty list of ints and floats always
converts successfully, coerced to the type of the first element. -/
theorem c4_list_attr_error_iff_head :
    (∀ (m : List (String × PyVal)) (k : String) (l : List PyScalar),
        (k, PyVal.pList l) ∈ m → listHeadNumeric l = false →
        (caffe_attr_to_ir_attr m).isOk = false)
    ∧ (∀ (k : String) (l : List PyScalar), l ≠ [] → (∀ v ∈ l, isNumScalar v = true) →
        (caffe_attr_to_ir_attr [(k, PyVal.pList l)]).isOk = true) := by
  constructor
  · intro m k l hmem hhead
    induction m with
    | nil => cases hmem
    | cons e m ih =>
      rcases List.mem_cons.mp hmem with he | hm
      · subst he
        have hentry : ∃ s, ir_attr_entry (PyVal.pList l) = Except.error s := by
          cases l with
          | nil => exact ⟨"IndexError", rfl⟩
          | cons v rest =>
            cases v with
            | sInt i => simp [listHeadNumeric] at hhead
            | sFloat q => simp [listHeadNumeric] at hhead
            | sStr s => exact ⟨"ERROR: unsupported list attribute", by simp [ir_attr_entry]⟩
            | sOther s => exact ⟨"ERROR: unsupported list attribute", by simp [ir_attr_entry]⟩
        obtain ⟨s, hs⟩ := hentry
        simp [caffe_attr_to_ir_attr, hs, bind, Except.bind, Except.isOk, Except.toBool]
      · have hrest := ih hm
        obtain ⟨k0, v0⟩ := e
        cases he : ir_attr_entry v0 with
        | error s =>
          simp [caffe_attr_to_ir_attr, he, bind, Except.bind, Except.isOk, Except.toBool]
        | ok a =>
          cases hr : caffe_attr_to_ir_attr m with
          | error s =>
            simp [caffe_attr_to_ir_attr, he, hr, bind, Except.bind, Except.isOk, Except.toBool]
          | ok r => rw [hr] at hrest; simp [Except.isOk, Except.toBool] at hrest
  · intro k l hne hnum
    have hentry : ∃ a, ir_attr_entry (PyVal.pList l) = Except.ok a := by
      cases l with
      | nil => exact absurd rfl hne
      | cons v rest =>
        have hv := hnum v (List.mem_cons_self v rest)
        cases v with
        | sInt i =>
          obtain ⟨r, hr⟩ := mapPyToInt_isOk (PyScalar.sInt i :: rest) hnum
          exact ⟨IrAttrVal.aIntList r, by simp [ir_attr_entry, hr, Except.map]⟩
        | sFloat q =>
          obtain ⟨r, hr⟩ := mapPyToFloat_isOk (PyScalar.sFloat q :: rest) hnum
          exact ⟨IrAttrVal.aFloatList r, by simp [ir_attr_entry, hr, Except.map]⟩
        | sStr s => simp [isNumScalar] at hv
        | sOther s => simp [isNumScalar] at hv
    obtain ⟨a, ha⟩ := hentry
    simp [caffe_attr_to_ir_attr, ha, bind, Except.bind, Except.isOk, Except.toBool]

/-- C4 witness: a string-headed list aborts the conversion; a float-headed
mixed list converts. -/
theorem c4_list_attr_error_iff_head_witness :
    (caffe_attr_to_ir_attr [("pool", PyVal.pList [PyScalar.sStr "MAX", PyScalar.sInt 1])]).isOk
      = false
    ∧ (caffe_attr_to_ir_attr
        [("w", PyVal.pList [PyScalar.sFloat (mkRat 1 2), PyScalar.sInt 3])]).isOk = true :=
  ⟨c4_list_attr_error_iff_head.1 [("pool", PyVal.pList [PyScalar.sStr "MAX", PyScalar.sInt 1])]
      "pool" [PyScalar.sStr "MAX", PyScalar.sInt 1] (by decide) (by decide),
   c4_list_attr_error_iff_head.2 "w" [PyScalar.sFloat (mkRat 1 2), PyScalar.sInt 3]
      (by decide) (by decide)⟩

/-! ### C10 -/

/-- The attribute-value shapes the extractor can produce: ints, floats,
strings, and non-empty all-int lists. -/
def isWellTypedAttr : PyVal → Bool
  | .pInt _ => true
  | .pFloat _ => true
  | .pStr _ => true
  | .pList l => !l.isEmpty && l.all (fun v => match v with | PyScalar.sInt _ => true | _ => false)
  | .pOther _ => false

/-- C10: every attribute map produced by `extractCaffeAttrInfo` maps names
only to ints, floats, strings, or non-empty lists of ints; consequently the
indexing of `attributeInfo[0]` in the converter never faults and its
unsupported-list / unsupported-type error branches never fire — the
conversion always succeeds on extractor output. -/
theorem c10_extractor_attrs_always_convert (lp : LayerParameter) :
    (extractCaffeAttrInfo lp).all (fun kv => isWellTypedAttr kv.2) = true
    ∧ (caffe_attr_to_ir_attr (extractCaffeAttrInfo lp)).isOk = true := by
  unfold extractCaffeAttrInfo
  split_ifs <;>
    simp [isWellTypedAttr, caffe_attr_to_ir_attr, ir_attr_entry, mapPyToInt, pyToInt,
      bind, Except.bind, Except.isOk, Except.toBool, Except.map]

/-- C10 witness: the conversion succeeds on the attributes extracted from a
concrete Convolution layer. -/
theorem c10_extractor_attrs_always_convert_witness :
    (caffe_attr_to_ir_attr (extractCaffeAttrInfo convClaim3)).isOk = true :=
  (c10_extractor_attrs_always_convert convClaim3).2

/-! ### More helper lemmas for the state-machine proofs -/

theorem ok_bind {α β : Type} (a : α) (f : α → Except String β) :
    (Except.ok a >>= f) = f a := rfl

theorem err_bind {α β : Type} (s : String) (f : α → Except String β) :
    ((Except.error s : Except String α) >>= f) = Except.error s := rfl

theorem inputShapeAt_cons (nm : String) (s : List Int) (ms : List (String × List Int)) :
    inputShapeAt ((nm, s) :: ms) 0 = Except.ok s := by
  simp [inputShapeAt, akeys, getAt, alookup, bind, Except.bind]

theorem extractBinary_nodes (lp : LayerParameter) (g : IrGraph) :
    (extractBinary lp g).nodes = g.nodes := by
  unfold extractBinary
  cases lp.blobs[0]? <;> cases lp.blobs[1]? <;> simp [addBinaryB]

theorem extractBinary_gVariables (lp : LayerParameter) (g : IrGraph) :
    (extractBinary lp g).gVariables = g.gVariables := by
  unfold extractBinary
  cases lp.blobs[0]? <;> cases lp.blobs[1]? <;> simp [addBinaryB]

theorem addVariableT_nodes (g : IrGraph) (t : IrTensor) :
    (addVariableT g t).nodes = g.nodes := rfl

theorem node_ntype (t : String) (lim : LayerInfoMap) (nd : IrNode)
    (h : caffe_node_to_ir_node t lim = Except.ok nd) : nd.ntype = t := by
  unfold caffe_node_to_ir_node at h
  cases hattr : caffe_attr_to_ir_attr lim.attributes with
  | error s => rw [hattr] at h; exact absurd h (by simp [bind, Except.bind])
  | ok a =>
    rw [hattr] at h
    simp only [ok_bind, Except.ok.injEq] at h
    subst h
    rfl

/-! ### C8 -/

/-- C8: for every layer and every input mapping whose first input has batch
dimension `n`, whenever shape inference succeeds, the batch entry of the output shape
is exactly `n` — no operator branch of `calculateTensorDims`
changes the batch dimension. -/
theorem c8_batch_dim_preserved (lp : LayerParameter) (im : List (String × List Int))
    (am : List (String × PyVal)) (nm : String) (n c h w : Int)
    (ms : List (String × List Int)) (d : DimList) (am2 : List (String × PyVal))
    (him : im = (nm, [n, c, h, w]) :: ms)
    (hok : calculateTensorDims lp im am = Except.ok (d, am2)) :
    d.output.head? = some n := by
  subst him
  unfold calculateTensorDims at hok
  split at hok
  · -- Convolution
    simp only [bind_ok_iff, inputShapeAt_cons, ok_bind, shape4] at hok
    obtain ⟨a1, h1, a2, h2, a3, h3, a4, h4, e1, he1, e2, he2, e3, he3, e4, he4,
      e5, he5, e6, he6, e7, he7, e8, he8, q3, hq3, q2, hq2, hfinal⟩ := hok
    simp only [Except.ok.injEq, Prod.mk.injEq] at hfinal
    obtain ⟨⟨rfl, rfl⟩⟩ := hfinal
    rfl
  · split at hok
    · -- Deconvolution
      simp only [bind_ok_iff, inputShapeAt_cons, ok_bind, shape4] at hok
      obtain ⟨a1, h1, a2, h2, a3, h3, a4, h4, e1, he1, e2, he2, e3, he3, e4, he4,
        e5, he5, e6, he6, e7, he7, e8, he8, hfinal⟩ := hok
      simp only [Except.ok.injEq, Prod.mk.injEq] at hfinal
      obtain ⟨⟨rfl, rfl⟩⟩ := hfinal
      rfl
    · split at hok
      · -- Pooling
        simp only [bind_ok_iff, inputShapeAt_cons, ok_bind, shape4] at hok
        obtain ⟨a1, h1, a2, h2, a3, h3, hok⟩ := hok
        split at hok
        · simp only [bind_ok_iff] at hok
          obtain ⟨k1, hk1, k2, hk2, pd1, hpd1, pd2, hpd2, st1, hst1, st2, hst2,
            e1, he1, e2, he2, e3, he3, e4, he4, e5, he5, e6, he6,
            q3, hq3, q2, hq2, hfinal⟩ := hok
          simp only [Except.ok.injEq, Prod.mk.injEq] at hfinal
          obtain ⟨⟨rfl, rfl⟩⟩ := hfinal
          rfl
        · simp only [bind_ok_iff] at hok
          obtain ⟨e1, he1, e2, he2, e3, he3, e4, he4, e5, he5, e6, he6,
            q3, hq3, q2, hq2, hfinal⟩ := hok
          simp only [Except.ok.injEq, Prod.mk.injEq] at hfinal
          obtain ⟨⟨rfl, rfl⟩⟩ := hfinal
          rfl
      · split at hok
        · -- InnerProduct
          simp only [bind_ok_iff, inputShapeAt_cons, ok_bind, shape4] at hok
          simp only [Except.ok.injEq, Prod.mk.injEq] at hok
          obtain ⟨⟨rfl, rfl⟩⟩ := hok
          rfl
        · split at hok
          · -- Concat
            simp only [bind_ok_iff, inputShapeAt_cons, ok_bind, shape4] at hok
            obtain ⟨csum, hcsum, hfinal⟩ := hok
            simp only [Except.ok.injEq, Prod.mk.injEq] at hfinal
            obtain ⟨⟨rfl, rfl⟩⟩ := hfinal
            rfl
          · split at hok
            · -- BatchNorm / Scale
              simp only [bind_ok_iff, inputShapeAt_cons, ok_bind, shape4] at hok
              simp only [Except.ok.injEq, Prod.mk.injEq] at hok
              obtain ⟨⟨rfl, rfl⟩⟩ := hok
              rfl
            · -- default: every remaining operator copies the input shape
              simp only [bind_ok_iff, inputShapeAt_cons, ok_bind, shape4] at hok
              simp only [Except.ok.injEq, Prod.mk.injEq] at hok
              obtain ⟨⟨rfl, rfl⟩⟩ := hok
              rfl

/-- C8 witness: shape inference on the concrete Convolution layer succeeds
with batch dimension 1 preserved. -/
theorem c8_batch_dim_preserved_witness :
    calculateTensorDims convClaim3 [("data", [1, 3, 224, 224])] (extractCaffeAttrInfo convClaim3)
      = Except.ok ({ output := [1, 64, 112, 112], weights := some [64, 3, 7, 7] },
          extractCaffeAttrInfo convClaim3)
    ∧ (DimList.output { output := [1, 64, 112, 112], weights := some [64, 3, 7, 7] }).head?
        = some 1 :=
  ⟨by decide,
   c8_batch_dim_preserved convClaim3 [("data", [1, 3, 224, 224])]
     (extractCaffeAttrInfo convClaim3) "data" 1 3 224 224 []
     { output := [1, 64, 112, 112], weights := some [64, 3, 7, 7] }
     (extractCaffeAttrInfo convClaim3) rfl (by decide)⟩

/-! ### C7 -/

/-- First operator layer of the Dropout model. -/
def reluA : LayerParameter := { name := "r1", ltype := "ReLU", bottom := ["data"], top := ["r1"] }

/-- The eliminated Dropout layer. -/
def dropoutB : LayerParameter :=
  { name := "drop", ltype := "Dropout", bottom := ["r1"], top := ["dout"] }

/-- Consumer of the Dropout output. -/
def reluC : LayerParameter := { name := "r2", ltype := "ReLU", bottom := ["dout"], top := ["r2"] }

/-- Three-layer model: operator, Dropout, operator. -/
def netDropout : NetParameter := { layer := [reluA, dropoutB, reluC] }

/-- C7: (1) processing any Dropout layer from any pass state emits no node
and changes the state only by recording
`dropoutAlias[output] = rename-resolved input`; (2) in the concrete model
ReLU - Dropout - ReLU, the pass emits exactly 2 nodes (one per real
operator layer) and the consumer of the Dropout output resolves to the
tensor `r1` of the producer. -/
theorem c7_dropout_elimination :
    (∀ (ii : List (String × List Int)) (total : Nat) (rest : List LayerParameter)
        (lp : LayerParameter) (st : PassState) (b t : String) (bs ts : List String),
      lp.ltype = "Dropout" → lp.bottom = b :: bs → lp.top = t :: ts →
      processLayer ii total rest lp st = Except.ok { st with
        dropoutLayerMap := aset st.dropoutLayerMap (caffe_name_to_ir_name t)
          ((alookup st.outputNameAliasMap (caffe_name_to_ir_name b)).getD
            (caffe_name_to_ir_name b)) })
    ∧ (extractCaffeNodeInfo netDropout {} netInputs).map (fun st =>
        (st.graph.nodes.map (fun nd => (nd.ntype, nd.inputs, nd.outputs)),
         st.dropoutLayerMap, st.count))
      = Except.ok ([("relu", ["data"], ["r1"]), ("relu", ["r1"], ["r2"])],
          [("dout", "r1")], 2) := by
  constructor
  · intro ii total rest lp st b t bs ts hty hbot htop
    simp [processLayer, hty, hbot, htop, getAt, bind, Except.bind]
  · decide

/-- C7 witness: the Dropout step applied to the concrete Dropout layer and
the empty state records the alias and emits nothing. -/
theorem c7_dropout_elimination_witness :
    processLayer netInputs 3 [reluC] dropoutB {}
      = Except.ok { dropoutLayerMap := [("dout", "r1")] } :=
  c7_dropout_elimination.1 netInputs 3 [reluC] dropoutB {} "r1" "dout" [] [] rfl rfl rfl

/-! ### C5 -/

/-- On success, the shared tail of the per-layer loop (`processCommon`) with a
resolved non-batch_norm operator type appends exactly one node of that type. -/
theorem processCommon_appends_node (ii : List (String × List Int)) (rest : List LayerParameter)
    (lp : LayerParameter) (st : PassState) (sct : String) (st2 : PassState)
    (hnr : lp.ltype ≠ "ReLU") (hnb : sct ≠ "batch_norm")
    (hok : processCommon ii rest lp st (some sct) = Except.ok st2) :
    ∃ nd : IrNode, nd.ntype = sct ∧ st2.graph.nodes = st.graph.nodes ++ [nd] := by
  unfold processCommon at hok
  simp only [hnr, if_false, ite_false, ok_bind, getLayerType] at hok
  split at hok
  · simp only [bind_ok_iff, ok_bind] at hok
    obtain ⟨im2, -, ⟨dl, am2⟩, -, hok⟩ := hok
    cases hw : dl.weights <;> simp only [hw] at hok
    all_goals cases hb : dl.bias <;> simp only [hb] at hok
    all_goals (
      obtain ⟨nd, hnd, hfin⟩ := hok
      simp only [Except.ok.injEq] at hfin
      subst hfin
      exact ⟨nd, node_ntype _ _ _ hnd,
        by simp [addNodeN, addVariableT_nodes, extractBinary_nodes]⟩)
  · simp only [bind_ok_iff, ok_bind] at hok
    obtain ⟨prev, -, im2, -, ⟨dl, am2⟩, -, hok⟩ := hok
    cases hw : dl.weights <;> simp only [hw] at hok
    all_goals cases hb : dl.bias <;> simp only [hb] at hok
    all_goals (
      obtain ⟨nd, hnd, hfin⟩ := hok
      simp only [Except.ok.injEq] at hfin
      subst hfin
      exact ⟨nd, node_ntype _ _ _ hnd,
        by simp [addNodeN, addVariableT_nodes, extractBinary_nodes]⟩)

/-- A Scale layer placed before any emitted record. -/
def scaleFirst : LayerParameter :=
  { name := "s0", ltype := "Scale", bottom := ["data"], top := ["s0"], blobs := [[1]] }

def netScaleFirst : NetParameter := { layer := [scaleFirst] }

/-- Scale layer with one raw blob, consumed after a ReLU. -/
def scaleMul : LayerParameter :=
  { name := "s1", ltype := "Scale", bottom := ["r1"], top := ["s1"], blobs := [[1]] }

/-- Scale layer with two raw blobs, consumed after a ReLU. -/
def scaleMulAdd : LayerParameter :=
  { name := "s2", ltype := "Scale", bottom := ["r1"], top := ["s2"], blobs := [[1], [2]] }

/-- C5 counterexample: when NO record has been emitted yet (`count = 0`), a
Scale layer does not produce a `mul` node — the pass dies with a `KeyError`,
because the `Scale` branch never assigns `layer_info_map["layer_type"]` when
`count = 0` and line 533 then reads the missing key. -/
theorem c5_scale_first_counterexample :
    extractCaffeNodeInfo netScaleFirst {} netInputs = Except.error "KeyError" := by
  decide

/-- C5 (amended): for a Scale layer processed when at least one record has
been emitted and the preceding emitted record is not `batch_norm`, a
successful step appends exactly one node, of type `mul` for one raw blob and
`muladd` otherwise; with no preceding record the pass instead fails (see the
counterexample).  The concrete two-layer models confirm the `mul`/`muladd`
types end to end. -/
theorem c5_scale_is_mul_or_muladd :
    (∀ (ii : List (String × List Int)) (total : Nat) (rest : List LayerParameter)
        (lp : LayerParameter) (st st2 : PassState) (prev : LayerInfoMap) (t2 : String),
      lp.ltype = "Scale" → 0 < st.count → st.count < total →
      alookup st.inputOutputMap (st.count - 1) = some prev →
      prev.layer_type = some t2 → t2 ≠ "batch_norm" →
      processLayer ii total rest lp st = Except.ok st2 →
      ∃ nd : IrNode, nd.ntype = (if lp.blobs.length = 1 then "mul" else "muladd") ∧
        st2.graph.nodes = st.graph.nodes ++ [nd])
    ∧ (extractCaffeNodeInfo { layer := [reluA, scaleMul] } {} netInputs).map
        (fun st => st.graph.nodes.map IrNode.ntype) = Except.ok ["relu", "mul"]
    ∧ (extractCaffeNodeInfo { layer := [reluA, scaleMulAdd] } {} netInputs).map
        (fun st => st.graph.nodes.map IrNode.ntype) = Except.ok ["relu", "muladd"] := by
  refine ⟨?_, by decide, by decide⟩
  intro ii total rest lp st st2 prev t2 hty hc htot hprev hpt hne hok
  have hd : processCommon ii rest lp st
      (some (if lp.blobs.length = 1 then "mul" else "muladd")) = Except.ok st2 := by
    unfold processLayer at hok
    simpa [hty, hc, htot, hprev, hpt, hne, caffe2ir_op_type, alookup, getLayerType,
      bind, Except.bind] using hok
  exact processCommon_appends_node ii rest lp st _ st2
    (by rw [hty]; decide) (by split <;> decide) hd

/-- The record emitted for a preceding ReLU layer. -/
def prevRelu : LayerInfoMap :=
  { layer_name := "r1", layer_type := some "relu", outputs := [("r1", [1, 3, 8, 8])] }

/-- Pass state after one emitted ReLU record. -/
def stAfterRelu : PassState := { inputOutputMap := [(0, prevRelu)], count := 1 }

/-- The state produced by the Scale step from `stAfterRelu`. -/
def c5StepResult : PassState :=
  match processLayer netInputs 2 [] scaleMul stAfterRelu with
  | Except.ok s => s
  | Except.error _ => {}

/-- C5 witness: the general Scale step applied after a concrete ReLU record
appends one `mul` node. -/
theorem c5_scale_is_mul_or_muladd_witness :
    ∃ nd : IrNode, nd.ntype = (if scaleMul.blobs.length = 1 then "mul" else "muladd") ∧
      c5StepResult.graph.nodes = stAfterRelu.graph.nodes ++ [nd] :=
  c5_scale_is_mul_or_muladd.1 netInputs 2 [] scaleMul stAfterRelu c5StepResult prevRelu "relu"
    rfl (by decide) (by decide) (by decide) rfl (by decide) (by decide)

/-! ### C1 -/

/-- BatchNorm layer carrying no raw blobs. -/
def bnLayer : LayerParameter :=
  { name := "bn", ltype := "BatchNorm", bottom := ["data"], top := ["bn"] }

/-- Scale layer with two raw blobs, directly after the BatchNorm. -/
def scaleLayer : LayerParameter :=
  { name := "sc", ltype := "Scale", bottom := ["bn"], top := ["sc"], blobs := [[1], [2]] }

def netBN : NetParameter := { layer := [bnLayer, scaleLayer] }

/-- C1 counterexample: in the model BatchNorm (no blobs) followed by Scale
(two blobs), the single fused `batch_norm` node carries THREE input names
(primary input, scale-weight, scale-bias) — not four as the claim states. -/
theorem c1_fused_inputs_counterexample :
    (extractCaffeNodeInfo netBN {} netInputs).map
      (fun st => st.graph.nodes.map (fun nd => (nd.ntype, nd.inputs)))
      = Except.ok [("batch_norm", ["data", "sc_w", "sc_b"])]
    ∧ (["data", "sc_w", "sc_b"] : List String).length ≠ 4 :=
  ⟨by decide, by decide⟩

/-- C1 (amended): fusing a two-blob Scale into a preceding blob-free
BatchNorm record emits exactly one node of type `batch_norm` whose input
list is exactly primary input, scale-weight, scale-bias (three entries; the
own `_w`/`_b` entries of the BatchNorm would be appended if it carried blobs), registers
exactly two additional IR variables, and does not advance the emission
count; the concrete two-layer model shows the whole pass emits exactly this
one node and these two variables. -/
theorem c1_batch_norm_scale_fusion :
    (∀ (ii : List (String × List Int)) (total : Nat) (rest : List LayerParameter)
        (lp : LayerParameter) (st st2 : PassState) (prev : LayerInfoMap)
        (nm o : String) (n c h w : Int) (e : Rat) (b1 b2 : List Rat),
      lp.ltype = "Scale" → lp.blobs = [b1, b2] →
      0 < st.count → st.count < total →
      alookup st.inputOutputMap (st.count - 1) = some prev →
      prev.layer_type = some "batch_norm" →
      prev.inputs = [(nm, [n, c, h, w])] →
      prev.attributes = [("epsilon", PyVal.pFloat e)] →
      prev.weights = none → prev.biases = none →
      lp.top = [o] →
      processLayer ii total rest lp st = Except.ok st2 →
      st2.count = st.count ∧
      st2.graph.nodes = st.graph.nodes ++
        [{ ntype := "batch_norm",
           inputs := [caffe_name_to_ir_name nm,
                      caffe_name_to_ir_name (caffe_name_to_ir_name lp.name ++ "_w"),
                      caffe_name_to_ir_name (caffe_name_to_ir_name lp.name ++ "_b")],
           outputs := [caffe_name_to_ir_name (caffe_name_to_ir_name lp.name)],
           attributes := [("epsilon", IrAttrVal.aFloat e)] }] ∧
      st2.graph.gVariables = st.graph.gVariables ++
        [caffe_blob_to_ir_tensor (caffe_name_to_ir_name lp.name ++ "_w") "F032" [c],
         caffe_blob_to_ir_tensor (caffe_name_to_ir_name lp.name ++ "_b") "F032" [c]])
    ∧ (extractCaffeNodeInfo netBN {} netInputs).map (fun st =>
        (st.graph.nodes.map (fun nd => (nd.ntype, nd.inputs, nd.outputs)),
         st.graph.gVariables.map (fun t => (t.name, t.shape)), st.count))
      = Except.ok ([("batch_norm", ["data", "sc_w", "sc_b"], ["sc"])],
          [("sc_w", [3]), ("sc_b", [3])], 1) := by
  refine ⟨?_, by decide⟩
  intro ii total rest lp st st2 prev nm o n c h w e b1 b2
    hty hblobs hc htot hprev hpt hpin hpattr hpw hpb htop hok
  unfold processLayer fuseScale at hok
  simp [hty, hblobs, hc, htot, hprev, hpt, hpin, hpattr, hpw, hpb, htop,
    caffe2ir_op_type, alookup, getLayerType, calculateTensorDims, inputShapeAt, akeys, getAt,
    shape4, extractBinary, addBinaryB, caffe_node_to_ir_node, caffe_attr_to_ir_attr,
    ir_attr_entry, optKeys, addVariableT, addNodeN, aupdate, bind, Except.bind] at hok
  subst hok
  refine ⟨rfl, by simp [addNodeN, addVariableT, extractBinary, hblobs, addBinaryB], ?_⟩
  simp [addNodeN, addVariableT, extractBinary, hblobs, addBinaryB]

/-- The record emitted (deferred) for the BatchNorm layer of `netBN`. -/
def prevBN : LayerInfoMap :=
  { layer_name := "bn", layer_type := some "batch_norm",
    attributes := [("epsilon", PyVal.pFloat (mkRat 1 100000))],
    inputs := [("data", [1, 3, 8, 8])], outputs := [("bn", [1, 3, 8, 8])] }

/-- Pass state after the deferred BatchNorm record. -/
def stAfterBN : PassState := { inputOutputMap := [(0, prevBN)], count := 1 }

/-- The state produced by the fusing Scale step from `stAfterBN`. -/
def c1StepResult : PassState :=
  match processLayer netInputs 2 [] scaleLayer stAfterBN with
  | Except.ok s => s
  | Except.error _ => {}

/-- C1 witness: the fusion step applied to the concrete BatchNorm record and
two-blob Scale layer. -/
theorem c1_batch_norm_scale_fusion_witness :
    c1StepResult.count = stAfterBN.count ∧
    c1StepResult.graph.nodes = stAfterBN.graph.nodes ++
      [{ ntype := "batch_norm", inputs := ["data", "sc_w", "sc_b"], outputs := ["sc"],
         attributes := [("epsilon", IrAttrVal.aFloat (mkRat 1 100000))] }] ∧
    c1StepResult.graph.gVariables = stAfterBN.graph.gVariables ++
      [{ name := "sc_w", dtype := "F032", shape := [3] },
       { name := "sc_b", dtype := "F032", shape := [3] }] :=
  c1_batch_norm_scale_fusion.1 netInputs 2 [] scaleLayer stAfterBN c1StepResult prevBN
    "data" "sc" 1 3 8 8 (mkRat 1 100000) [1] [2]
    rfl rfl (by decide) (by decide) (by decide) rfl rfl rfl rfl rfl rfl (by decide)

/-! ### C9 -/

theorem pyCeilDivFloat_one (a : Int) : pyCeilDivFloat a 1 = Except.ok a := by
  simp [pyCeilDivFloat, Rat.divInt_one, Rat.ceil]

/-- The global average-pooling layer: declared kernel 3, stride 2, pad 1,
all overridden by the global flag. -/
def globalPool : LayerParameter :=
  { name := "gp", ltype := "Pooling", bottom := ["data"], top := ["gp"],
    pooling_param := { pool := 1, pad := 1, stride := 2, kernel_size := 3,
                       global_pooling := true } }

def netGlobalPool : NetParameter := { layer := [globalPool] }

def gpInputs : List (String × List Int) := [("data", [1, 512, 7, 7])]

/-- C9: (1) for every global-pooling layer with input `(n,c,h,w)`, shape
inference rewrites the attribute map shared with the layer record in place:
`kernel_shape` becomes `[w, h]`, `strides` becomes `[1, 1]`, and only the
first two entries of `pads` are zeroed while the last two keep the declared
pad values; (2) in the concrete model the emitted node carries exactly these
mutated attribute values (not the declared kernel 3 / stride 2 / pad-4 ones)
and the output shape is `(1,512,1,1)`. -/
theorem c9_global_pooling_mutation :
    (∀ (lp : LayerParameter) (im : List (String × List Int)) (nm : String)
        (n c h w : Int) (ms : List (String × List Int)),
      lp.ltype = "Pooling" → lp.pooling_param.global_pooling = true →
      im = (nm, [n, c, h, w]) :: ms →
      calculateTensorDims lp im (extractCaffeAttrInfo lp) = Except.ok
        ({ output := [n, c, 1, 1] },
         [("strides", PyVal.pList [PyScalar.sInt 1, PyScalar.sInt 1]),
          ("kernel_shape", PyVal.pList [PyScalar.sInt w, PyScalar.sInt h]),
          ("pads", PyVal.pList [PyScalar.sInt 0, PyScalar.sInt 0,
             PyScalar.sInt (lp.pooling_param.pad_w.getD lp.pooling_param.pad),
             PyScalar.sInt (lp.pooling_param.pad_h.getD lp.pooling_param.pad)]),
          ("dim_round_mode", PyVal.pStr "ceil")]))
    ∧ (extractCaffeNodeInfo netGlobalPool {} gpInputs).map (fun st =>
        (st.graph.nodes.map (fun nd => (nd.ntype, nd.attributes)), st.outputsMap))
      = Except.ok ([("avg_pool",
          [("strides", IrAttrVal.aIntList [1, 1]),
           ("kernel_shape", IrAttrVal.aIntList [7, 7]),
           ("pads", IrAttrVal.aIntList [0, 0, 1, 1]),
           ("dim_round_mode", IrAttrVal.aStr "ceil")])],
          [("gp", [1, 512, 1, 1])]) := by
  refine ⟨?_, by decide⟩
  intro lp im nm n c h w ms hty hg him
  subst him
  simp [calculateTensorDims, extractCaffeAttrInfo, hty, hg, getListAttr, alookup, aset,
    setAt, elemInt, getAt, inputShapeAt, akeys, shape4, pyCeilDivFloat_one,
    bind, Except.bind, List.set]

/-- C9 witness: the global-pooling mutation evaluated on the concrete layer
and input `(1,512,7,7)`. -/
theorem c9_global_pooling_mutation_witness :
    calculateTensorDims globalPool [("data", [1, 512, 7, 7])] (extractCaffeAttrInfo globalPool)
      = Except.ok
        ({ output := [1, 512, 1, 1] },
         [("strides", PyVal.pList [PyScalar.sInt 1, PyScalar.sInt 1]),
          ("kernel_shape", PyVal.pList [PyScalar.sInt 7, PyScalar.sInt 7]),
          ("pads", PyVal.pList [PyScalar.sInt 0, PyScalar.sInt 0,
             PyScalar.sInt 1, PyScalar.sInt 1]),
          ("dim_round_mode", PyVal.pStr "ceil")]) :=
  c9_global_pooling_mutation.1 globalPool [("data", [1, 512, 7, 7])] "data" 1 512 7 7 []
    rfl rfl rfl

end Caffe2Nnir
